import Mathlib

/- Verification of the LitLayer key-generation and EIP-712 signing pipeline
   of src/key_generator.py, shallowly embedded in Lean.

   Bytes are modelled as natural numbers below 256 and byte strings as
   `List Nat`.  The keccak256 hash (provided by the external eth_utils
   library in the source) is kept as an explicit function parameter
   `keccak : List Nat → List Nat`, constrained to return 32 bytes where a
   statement needs that fact. -/

/-- Big-endian encoding of a natural number into `w` bytes (the `w` low
bytes of `n`, most significant first). -/
def beBytes : Nat → Nat → List Nat
  | 0, _ => []
  | w + 1, n => beBytes w (n / 256) ++ [n % 256]

/-- Big-endian value of a byte list. -/
def fromBE (bs : List Nat) : Nat :=
  bs.foldl (fun acc b => 256 * acc + b) 0

/-- UTF-8 bytes of a string.  Every string occurring in this pipeline
(struct names, field names, environment tags, platform ids) is ASCII, where
UTF-8 encoding agrees with the code points. -/
def utf8Bytes (s : String) : List Nat := s.data.map Char.toNat

/-- The EIP-712 field types occurring in the two schemas of
src/key_generator.py (lines 32-46). -/
inductive FieldKind
  | string
  | address
  | uint256
  | bytes32
deriving DecidableEq

/-- Solidity spelling of a field kind, as used inside the canonical
type-signature string. -/
def FieldKind.solName : FieldKind → String
  | .string => "string"
  | .address => "address"
  | .uint256 => "uint256"
  | .bytes32 => "bytes32"

/-- One `{"name": ..., "type": ...}` entry of a schema (src/key_generator.py
lines 32-46). -/
structure FieldDecl where
  name : String
  kind : FieldKind

/-- A named, ordered EIP-712 struct schema. -/
structure TypeSchema where
  name : String
  fields : List FieldDecl

/-- A field value of one of the four field kinds: an address and a uint256
are natural numbers, a bytes32 is a byte list. -/
inductive FieldValue
  | str (s : String)
  | addr (a : Nat)
  | uint (n : Nat)
  | b32 (bs : List Nat)

/-- Canonical EIP-712 type-signature string
`StructName(type1 name1,type2 name2,...)` with fields in declared order. -/
def typeSigString (sch : TypeSchema) : String :=
  sch.name ++ "(" ++
    String.intercalate "," (sch.fields.map (fun f => f.kind.solName ++ " " ++ f.name)) ++ ")"

/-- EIP-712 type hash: keccak256 of the UTF-8 type-signature string. -/
def typeHash (keccak : List Nat → List Nat) (sch : TypeSchema) : List Nat :=
  keccak (utf8Bytes (typeSigString sch))

/-- Per-field EIP-712 value encoding: a string is hashed with keccak256 to
32 bytes, an address and a uint256 are encoded big-endian into 32 bytes (an
address, being below 2^160, comes out left-padded with 12 zero bytes), and a
bytes32 is its 32 bytes unchanged. -/
def encodeValue (keccak : List Nat → List Nat) : FieldValue → List Nat
  | .str s => keccak (utf8Bytes s)
  | .addr a => beBytes 32 a
  | .uint n => beBytes 32 n
  | .b32 bs => bs

/-- Modelled from the spec: src/key_generator.py (line 11) imports
`encode_typed` from `eth_abi.abi`, a function whose implementation is not
part of this repository; following spec section 4.2 it is modelled as the
EIP-712 `encodeData` with type-hash prefix,
`typeHash(schema) || concat(encodeValue(field) for field in schema.fields)`,
with fields in declared order. -/
def encode_typed (keccak : List Nat → List Nat) (sch : TypeSchema)
    (vals : List FieldValue) : List Nat :=
  typeHash keccak sch ++ (vals.map (encodeValue keccak)).flatten

/-- The `Agent` entry of `self.types` (src/key_generator.py lines 33-38). -/
def agentSchema : TypeSchema :=
  ⟨"Agent",
    [⟨"litLayer", .string⟩, ⟨"agentAddress", .address⟩,
     ⟨"platform", .string⟩, ⟨"expiryTime", .uint256⟩]⟩

/-- The `EIP712Domain` entry of `self.types` (src/key_generator.py
lines 39-45). -/
def eip712DomainSchema : TypeSchema :=
  ⟨"EIP712Domain",
    [⟨"name", .string⟩, ⟨"version", .string⟩, ⟨"chainId", .uint256⟩,
     ⟨"verifyingContract", .address⟩, ⟨"salt", .bytes32⟩]⟩

/-- An EIP-712 domain descriptor (the shape of `self.domain`,
src/key_generator.py lines 23-29). -/
structure Eip712Domain where
  name : String
  version : String
  chainId : Nat
  verifyingContract : Nat
  salt : List Nat

/-- The signed business payload (the `message` dict built in
`prepare_eip712_data`, src/key_generator.py lines 84-89). -/
structure AgentMessage where
  litLayer : String
  agentAddress : Nat
  platform : String
  expiryTime : Nat

/-- The domain field values in the order `_encode_domain` passes them to
`encode_typed` (src/key_generator.py lines 120-126). -/
def domainValues (d : Eip712Domain) : List FieldValue :=
  [.str d.name, .str d.version, .uint d.chainId, .addr d.verifyingContract, .b32 d.salt]

/-- The message field values in the order `_encode_message` passes them to
`encode_typed` (src/key_generator.py lines 133-138). -/
def agentValues (m : AgentMessage) : List FieldValue :=
  [.str m.litLayer, .addr m.agentAddress, .str m.platform, .uint m.expiryTime]

/-- `KeyGenerator._encode_domain` (src/key_generator.py lines 116-127):
keccak256 of the typed encoding of the domain fields. -/
def encode_domain (keccak : List Nat → List Nat) (d : Eip712Domain) : List Nat :=
  keccak (encode_typed keccak eip712DomainSchema (domainValues d))

/-- `KeyGenerator._encode_message` (src/key_generator.py lines 129-139):
keccak256 of the typed encoding of the message fields. -/
def encode_message (keccak : List Nat → List Nat) (m : AgentMessage) : List Nat :=
  keccak (encode_typed keccak agentSchema (agentValues m))

/-- `KeyGenerator.encode_typed_data` (src/key_generator.py lines 97-114):
`keccak256(b"\x19\x01" + domain_separator + message_hash)`. -/
def encode_typed_data (keccak : List Nat → List Nat) (d : Eip712Domain)
    (m : AgentMessage) : List Nat :=
  keccak (0x19 :: 0x01 :: (encode_domain keccak d ++ encode_message keccak m))

/-- Spec-side definition (spec section 4.2): `hashStruct(schema, values) =
keccak256(typeHash(schema) || concat(encodeValue(field)))` with
`typeHash = keccak256(utf8(typeSignatureString))`. -/
def specHashStruct (keccak : List Nat → List Nat) (sch : TypeSchema)
    (vals : List FieldValue) : List Nat :=
  keccak (keccak (utf8Bytes (typeSigString sch)) ++ (vals.map (encodeValue keccak)).flatten)

/-- The fixed `self.domain` constant (src/key_generator.py lines 23-29):
name "LitLayer", version "v1", chainId 42161, zero verifying contract, zero
salt. -/
def litlayerDomain : Eip712Domain :=
  ⟨"LitLayer", "v1", 42161, 0, List.replicate 32 0⟩

/-- The dict returned by `prepare_eip712_data` (`types` is the fixed schema
table and is carried by `agentSchema`/`eip712DomainSchema`). -/
structure Eip712Data where
  domain : Eip712Domain
  message : AgentMessage

/-- `KeyGenerator.prepare_eip712_data` (src/key_generator.py lines 63-95),
with the clock reading `int(time.time())` made an explicit argument `now`:
builds the message with `expiryTime = now + 86400` over the fixed domain. -/
def prepare_eip712_data (now agentAddress : Nat) (platform envTag : String) :
    Eip712Data :=
  ⟨litlayerDomain, ⟨envTag, agentAddress, platform, now + 86400⟩⟩

/-- The order of the secp256k1 group. -/
def secp256k1Order : Nat :=
  115792089237316195423570985008687907852837564279074904382605163141518161494337

/-- `KeyGenerator.generate_trading_key` (src/key_generator.py lines 48-61),
with the RNG draw `secrets.token_bytes(32)` made an explicit argument: the
draw is handed to the key constructor unchanged — there is no range check
and no redraw loop in the source — so the returned secret scalar is the
big-endian value of the 32 drawn bytes.  The `agent_address` argument is
accepted and never used, exactly as in the source. -/
def generate_trading_key (agentAddress : Nat) (rngDraw : List Nat) : Nat :=
  fromBE rngDraw

instance : NeZero secp256k1Order := ⟨by decide⟩

/-- Scalars modulo the secp256k1 group order. -/
abbrev Scalar := ZMod secp256k1Order

/-- An ECDSA signature `{r, s, v}` (spec section 3). -/
structure EcdsaSig where
  r : Scalar
  s : Scalar
  v : Nat

/-- Modelled from the spec: the Signer component (spec section 4.3) — the
source only wraps the external eth_keys library (`sign_msg_hash`,
src/key_generator.py lines 141-161) and contains no `verify` or
`recoverAddress` at all.  ECDSA over secp256k1 is modelled in the scalar
group `ZMod n`, representing the curve point `k·G` by its discrete
logarithm `k` and x-coordinate extraction by the identity; the recovery id
`v` (which selects the curve point for a given x-coordinate) is carried but
not needed in this representation.  Signing a digest `z` with secret `d`,
nonce `k` and nonce inverse `kinv` yields `r = x(k·G) = k` and
`s = k⁻¹·(z + r·d)`. -/
def ecdsaSign (z d k kinv : Scalar) : EcdsaSig :=
  ⟨k, kinv * (z + k * d), 27⟩

/-- Modelled from the spec: public-key recovery `Q = r⁻¹·(s·R − z·G)`
(spec section 4.3 `recoverAddress`), in the discrete-logarithm
representation, given the inverse `rinv` of the signature's `r`. -/
def ecdsaRecover (z : Scalar) (sig : EcdsaSig) (rinv : Scalar) : Scalar :=
  rinv * (sig.s * sig.r - z)

/-- Modelled from the spec: `verify(digest, signature, expectedAddress) =
(recoverAddress(digest, signature) == expectedAddress)` (spec section 4.3),
for an address-derivation function `addrOf` on public keys. -/
def ecdsaVerify (addrOf : Scalar → Nat) (z : Scalar) (sig : EcdsaSig)
    (rinv : Scalar) (expected : Nat) : Bool :=
  addrOf (ecdsaRecover z sig rinv) == expected

/-- Storage filename `f"{wallet_address}_{session_id}.key"`
(src/key_generator.py lines 223, 229 and 238). -/
def session_file_key (walletAddress sessionId : String) : String :=
  walletAddress ++ "_" ++ sessionId ++ ".key"

/-- `KeyGenerator.save_session_keys` (src/key_generator.py lines 221-225).
The `.keys` directory is modelled as a map from filename to stored record;
`json.dump` followed by `json.load` is taken as the identity on records.
Writing overwrites whatever the key held. -/
def save_session_keys {α : Type} (walletAddress sessionId : String)
    (keyData : α) (store : String → Option α) : String → Option α :=
  fun f => if f = session_file_key walletAddress sessionId then some keyData else store f

/-- `KeyGenerator.load_session_keys` (src/key_generator.py lines 227-234):
returns `None` when the file does not exist. -/
def load_session_keys {α : Type} (walletAddress sessionId : String)
    (store : String → Option α) : Option α :=
  store (session_file_key walletAddress sessionId)

/-- `KeyGenerator.delete_session_keys` (src/key_generator.py lines 236-240):
removes the file when it exists, does nothing otherwise. -/
def delete_session_keys {α : Type} (walletAddress sessionId : String)
    (store : String → Option α) : String → Option α :=
  fun f => if f = session_file_key walletAddress sessionId then none else store f

/-- The storage directory before anything was ever written. -/
def emptyStore (α : Type) : String → Option α := fun _ => none

/-- Ambient process state an execution could in principle read: a clock and
an RNG stream. -/
structure ProcessState where
  clock : Nat
  rng : List Nat

/-- State-passing form of `encode_typed_data`: the source body
(src/key_generator.py lines 97-114) performs no clock, RNG or file access,
so the process state passes through untouched and unread. -/
def encode_typed_data_run (keccak : List Nat → List Nat) (st : ProcessState)
    (d : Eip712Domain) (m : AgentMessage) : List Nat × ProcessState :=
  (encode_typed_data keccak d m, st)

/-- A fixed stand-in hash function used only to instantiate theorems at
concrete inputs: it returns 32 zero bytes for every input. -/
def constHash32 : List Nat → List Nat := fun _ => List.replicate 32 0

theorem beBytes_length (w n : Nat) : (beBytes w n).length = w := by
  induction w generalizing n with
  | zero => rfl
  | succ w ih => simp [beBytes, ih]

theorem beBytes_zero (w : Nat) : beBytes w 0 = List.replicate w 0 := by
  induction w with
  | zero => rfl
  | succ w ih => simp [beBytes, ih, List.replicate_succ']

theorem beBytes_split (w1 w2 n : Nat) (h : n < 256 ^ w2) :
    beBytes (w1 + w2) n = List.replicate w1 0 ++ beBytes w2 n := by
  induction w2 generalizing n with
  | zero =>
    have hn : n = 0 := Nat.lt_one_iff.mp h
    subst hn
    simp [beBytes, beBytes_zero]
  | succ w2 ih =>
    have hd : n / 256 < 256 ^ w2 := Nat.div_lt_of_lt_mul (by rwa [pow_succ'] at h)
    show beBytes ((w1 + w2) + 1) n = _
    simp [beBytes, ih _ hd, List.append_assoc]

theorem fromBE_beBytes (w n : Nat) (h : n < 256 ^ w) : fromBE (beBytes w n) = n := by
  induction w generalizing n with
  | zero =>
    have hn : n = 0 := Nat.lt_one_iff.mp h
    subst hn
    rfl
  | succ w ih =>
    have hd : n / 256 < 256 ^ w := Nat.div_lt_of_lt_mul (by rwa [pow_succ'] at h)
    have hmain := ih (n / 256) hd
    unfold fromBE at hmain ⊢
    show List.foldl _ 0 (beBytes w (n / 256) ++ [n % 256]) = n
    rw [List.foldl_append, hmain]
    show 256 * (n / 256) + n % 256 = n
    exact Nat.div_add_mod n 256

theorem beBytes32_address (a : Nat) (h : a < 2 ^ 160) :
    beBytes 32 a = List.replicate 12 0 ++ beBytes 20 a := by
  have h20 : a < 256 ^ 20 := by
    have he : (2 : Nat) ^ 160 = 256 ^ 20 := by norm_num
    rwa [he] at h
  exact beBytes_split 12 20 a h20

theorem two_pow_ne_zero_scalar (i : Nat) : ((2 ^ i : Nat) : Scalar) ≠ 0 := by
  intro h
  have hdvd : secp256k1Order ∣ 2 ^ i :=
    (ZMod.natCast_zmod_eq_zero_iff_dvd (2 ^ i) secp256k1Order).mp h
  have hcop : Nat.Coprime secp256k1Order (2 ^ i) :=
    Nat.Coprime.pow_right i (by decide)
  have h1 : secp256k1Order ∣ 1 := hcop ▸ Nat.dvd_gcd dvd_rfl hdvd
  exact absurd (Nat.dvd_one.mp h1) (by decide)

/-- Claim C1: for every value assignment, the struct hash computed by
`_encode_message` (and by `_encode_domain` for the domain) equals keccak256
of the type hash — keccak256 of the canonical type-signature string with
fields in declared order — followed by the 32-byte encodings of the field
values in declared order, i.e. the spec's `hashStruct`; the canonical
signature strings of the two schemas are spelled out, and every field
encoding is 32 bytes long. -/
theorem c1_struct_hash_canonical (keccak : List Nat → List Nat)
    (hk : ∀ bs, (keccak bs).length = 32) (m : AgentMessage) (d : Eip712Domain)
    (hsalt : d.salt.length = 32) :
    encode_message keccak m = specHashStruct keccak agentSchema (agentValues m) ∧
    encode_domain keccak d = specHashStruct keccak eip712DomainSchema (domainValues d) ∧
    typeSigString agentSchema =
      "Agent(string litLayer,address agentAddress,string platform,uint256 expiryTime)" ∧
    typeSigString eip712DomainSchema =
      "EIP712Domain(string name,string version,uint256 chainId,address verifyingContract,bytes32 salt)" ∧
    (∀ v ∈ agentValues m, (encodeValue keccak v).length = 32) ∧
    (∀ v ∈ domainValues d, (encodeValue keccak v).length = 32) := by
  refine ⟨rfl, rfl, rfl, rfl, ?_, ?_⟩
  · intro v hv
    simp only [agentValues, List.mem_cons, List.not_mem_nil, or_false] at hv
    rcases hv with h | h | h | h <;> subst h <;>
      simp [encodeValue, hk, beBytes_length]
  · intro v hv
    simp only [domainValues, List.mem_cons, List.not_mem_nil, or_false] at hv
    rcases hv with h | h | h | h | h <;> subst h <;>
      simp [encodeValue, hk, beBytes_length, hsalt]

/-- Witness for C1 at the fixed stand-in hash, a concrete message and the
fixed source domain. -/
theorem c1_struct_hash_canonical_witness :
    (∀ bs, (constHash32 bs).length = 32) ∧ litlayerDomain.salt.length = 32 ∧
    (encode_message constHash32 ⟨"Devnet", 1, "turbox", 86401⟩ =
        specHashStruct constHash32 agentSchema (agentValues ⟨"Devnet", 1, "turbox", 86401⟩) ∧
      encode_domain constHash32 litlayerDomain =
        specHashStruct constHash32 eip712DomainSchema (domainValues litlayerDomain) ∧
      typeSigString agentSchema =
        "Agent(string litLayer,address agentAddress,string platform,uint256 expiryTime)" ∧
      typeSigString eip712DomainSchema =
        "EIP712Domain(string name,string version,uint256 chainId,address verifyingContract,bytes32 salt)" ∧
      (∀ v ∈ agentValues ⟨"Devnet", 1, "turbox", 86401⟩,
          (encodeValue constHash32 v).length = 32) ∧
      (∀ v ∈ domainValues litlayerDomain, (encodeValue constHash32 v).length = 32)) :=
  ⟨fun _ => List.length_replicate 32 0, List.length_replicate 32 0,
   c1_struct_hash_canonical constHash32 (fun _ => List.length_replicate 32 0)
     ⟨"Devnet", 1, "turbox", 86401⟩ litlayerDomain (List.length_replicate 32 0)⟩

/-- Claim C2: for every domain and message (the schema is the fixed `Agent`
schema of the source), the signing digest computed by `encode_typed_data`
equals keccak256 of the two fixed bytes 0x19 0x01 followed by the 32-byte
domain separator followed by the 32-byte message struct hash — a 66-byte
keccak preimage with the fixed 2-byte prefix. -/
theorem c2_digest_composition (keccak : List Nat → List Nat)
    (hk : ∀ bs, (keccak bs).length = 32) (d : Eip712Domain) (m : AgentMessage) :
    encode_typed_data keccak d m =
      keccak ([0x19, 0x01] ++ encode_domain keccak d ++ encode_message keccak m) ∧
    (encode_domain keccak d).length = 32 ∧
    (encode_message keccak m).length = 32 ∧
    ([0x19, 0x01] ++ encode_domain keccak d ++ encode_message keccak m).length = 66 := by
  refine ⟨rfl, hk _, hk _, ?_⟩
  simp [encode_domain, encode_message, hk]

/-- Witness for C2 at the fixed stand-in hash, the fixed source domain and a
concrete message. -/
theorem c2_digest_composition_witness :
    (∀ bs, (constHash32 bs).length = 32) ∧
    (encode_typed_data constHash32 litlayerDomain ⟨"Devnet", 1, "turbox", 86401⟩ =
        constHash32 ([0x19, 0x01] ++ encode_domain constHash32 litlayerDomain ++
          encode_message constHash32 ⟨"Devnet", 1, "turbox", 86401⟩) ∧
      (encode_domain constHash32 litlayerDomain).length = 32 ∧
      (encode_message constHash32 ⟨"Devnet", 1, "turbox", 86401⟩).length = 32 ∧
      ([0x19, 0x01] ++ encode_domain constHash32 litlayerDomain ++
          encode_message constHash32 ⟨"Devnet", 1, "turbox", 86401⟩).length = 66) :=
  ⟨fun _ => List.length_replicate 32 0,
   c2_digest_composition constHash32 (fun _ => List.length_replicate 32 0)
     litlayerDomain ⟨"Devnet", 1, "turbox", 86401⟩⟩

/-- Claim C3: the per-field value encoding follows the EIP-712
atomic/dynamic rules for the field types of the Agent and EIP712Domain
schemas: a string value contributes keccak256 of its bytes (32 bytes), an
address is left-padded to 32 bytes (12 zero bytes before its 20 big-endian
bytes), and a uint256 is its big-endian 32-byte encoding (recovering the
value exactly). -/
theorem c3_field_encoding_rules (keccak : List Nat → List Nat)
    (hk : ∀ bs, (keccak bs).length = 32) (s : String) (a n : Nat)
    (ha : a < 2 ^ 160) (hn : n < 2 ^ 256) :
    encodeValue keccak (.str s) = keccak (utf8Bytes s) ∧
    (encodeValue keccak (.str s)).length = 32 ∧
    encodeValue keccak (.addr a) = List.replicate 12 0 ++ beBytes 20 a ∧
    (encodeValue keccak (.addr a)).length = 32 ∧
    encodeValue keccak (.uint n) = beBytes 32 n ∧
    (encodeValue keccak (.uint n)).length = 32 ∧
    fromBE (beBytes 32 n) = n := by
  have h256 : n < 256 ^ 32 := by
    have he : (2 : Nat) ^ 256 = 256 ^ 32 := by norm_num
    rwa [he] at hn
  refine ⟨rfl, hk _, ?_, beBytes_length 32 a, rfl, beBytes_length 32 n,
    fromBE_beBytes 32 n h256⟩
  show beBytes 32 a = _
  exact beBytes32_address a ha

/-- Witness for C3 at the fixed stand-in hash and concrete field values. -/
theorem c3_field_encoding_rules_witness :
    (∀ bs, (constHash32 bs).length = 32) ∧ (3 : Nat) < 2 ^ 160 ∧ (5 : Nat) < 2 ^ 256 ∧
    (encodeValue constHash32 (.str "x") = constHash32 (utf8Bytes "x") ∧
      (encodeValue constHash32 (.str "x")).length = 32 ∧
      encodeValue constHash32 (.addr 3) = List.replicate 12 0 ++ beBytes 20 3 ∧
      (encodeValue constHash32 (.addr 3)).length = 32 ∧
      encodeValue constHash32 (.uint 5) = beBytes 32 5 ∧
      (encodeValue constHash32 (.uint 5)).length = 32 ∧
      fromBE (beBytes 32 5) = 5) :=
  ⟨fun _ => List.length_replicate 32 0, by decide, by decide,
   c3_field_encoding_rules constHash32 (fun _ => List.length_replicate 32 0)
     "x" 3 5 (by decide) (by decide)⟩

/-- Claim C4: signing a digest and verifying the signature against that
digest and the signer's address succeeds, and verifying the same signature
against any digest differing in one bit fails.  Digests are 32-byte (below
2^256) values; the keypair is any secret `d` with address `addrOf d` for an
injective address derivation; the deterministic nonce `k` comes with its
modular inverse `kinv` (which is also the inverse of `r = k` that the
verifier uses for recovery).  A digest differing from `z` in one bit differs
from it by `2^i` for some bit position `i < 256`. -/
theorem c4_sign_verify_roundtrip (addrOf : Scalar → Nat)
    (hinj : Function.Injective addrOf) (z zBad : Nat) (d k kinv : Scalar)
    (hz : z < 2 ^ 256) (hzB : zBad < 2 ^ 256) (hk : k * kinv = 1)
    (hbit : ∃ i, i < 256 ∧ (zBad = z + 2 ^ i ∨ z = zBad + 2 ^ i)) :
    ecdsaVerify addrOf (z : Scalar) (ecdsaSign (z : Scalar) d k kinv) kinv (addrOf d) = true ∧
    ecdsaVerify addrOf (zBad : Scalar) (ecdsaSign (z : Scalar) d k kinv) kinv (addrOf d) = false := by
  have hrec1 : ecdsaRecover (z : Scalar) (ecdsaSign (z : Scalar) d k kinv) kinv = d := by
    simp only [ecdsaRecover, ecdsaSign]
    linear_combination (kinv * (z : Scalar) + d * (k * kinv + 1)) * hk
  have hdiff : ((z : Nat) : Scalar) ≠ ((zBad : Nat) : Scalar) := by
    obtain ⟨i, hi, hcase⟩ := hbit
    rcases hcase with hc | hc
    · subst hc
      intro he
      rw [Nat.cast_add] at he
      exact two_pow_ne_zero_scalar i (self_eq_add_right.mp he)
    · subst hc
      intro he
      rw [Nat.cast_add] at he
      exact two_pow_ne_zero_scalar i (add_right_eq_self.mp he)
  constructor
  · show (addrOf (ecdsaRecover (z : Scalar) (ecdsaSign (z : Scalar) d k kinv) kinv) ==
        addrOf d) = true
    rw [hrec1]
    exact beq_self_eq_true _
  · have hrec2 : ecdsaRecover (zBad : Scalar) (ecdsaSign (z : Scalar) d k kinv) kinv =
        d + kinv * ((z : Scalar) - (zBad : Scalar)) := by
      simp only [ecdsaRecover, ecdsaSign]
      linear_combination (kinv * (z : Scalar) + d * (k * kinv + 1)) * hk
    have hne : ecdsaRecover (zBad : Scalar) (ecdsaSign (z : Scalar) d k kinv) kinv ≠ d := by
      rw [hrec2]
      intro he
      have h2 : kinv * ((z : Scalar) - (zBad : Scalar)) = 0 := add_right_eq_self.mp he
      have h3 : ((z : Scalar) - (zBad : Scalar)) = 0 := by
        calc (z : Scalar) - (zBad : Scalar)
            = (k * kinv) * ((z : Scalar) - (zBad : Scalar)) := by rw [hk, one_mul]
          _ = k * (kinv * ((z : Scalar) - (zBad : Scalar))) := by ring
          _ = k * 0 := by rw [h2]
          _ = 0 := mul_zero k
      exact hdiff (sub_eq_zero.mp h3)
    show (addrOf (ecdsaRecover (zBad : Scalar) (ecdsaSign (z : Scalar) d k kinv) kinv) ==
        addrOf d) = false
    exact beq_eq_false_iff_ne.mpr (fun hEq => hne (hinj hEq))

/-- Witness for C4: the identity-like address map `ZMod.val`, digest 0, the
digest 1 differing from it in bit 0, secret 2, nonce 1. -/
theorem c4_sign_verify_roundtrip_witness :
    Function.Injective (ZMod.val : Scalar → Nat) ∧
    (0 : Nat) < 2 ^ 256 ∧ (1 : Nat) < 2 ^ 256 ∧ (1 : Scalar) * 1 = 1 ∧
    (∃ i, i < 256 ∧ ((1 : Nat) = 0 + 2 ^ i ∨ (0 : Nat) = 1 + 2 ^ i)) ∧
    (ecdsaVerify (ZMod.val : Scalar → Nat) ((0 : Nat) : Scalar)
        (ecdsaSign ((0 : Nat) : Scalar) 2 1 1) 1 (ZMod.val (2 : Scalar)) = true ∧
      ecdsaVerify (ZMod.val : Scalar → Nat) ((1 : Nat) : Scalar)
        (ecdsaSign ((0 : Nat) : Scalar) 2 1 1) 1 (ZMod.val (2 : Scalar)) = false) :=
  ⟨ZMod.val_injective secp256k1Order, by decide, by decide, one_mul 1,
   ⟨0, by decide, Or.inl (by decide)⟩,
   c4_sign_verify_roundtrip (ZMod.val : Scalar → Nat)
     (ZMod.val_injective secp256k1Order) 0 1 2 1 1
     (by decide) (by decide) (one_mul 1) ⟨0, by decide, Or.inl (by decide)⟩⟩

/-- Claim C5 (code bug): the source `generate_trading_key` has no retry
loop — the 32 RNG bytes are passed to the key constructor unchanged — so a
draw outside the valid scalar range `[1, n-1]` is returned as drawn instead
of being redrawn: 32 bytes of 0xFF yield the scalar `2^256 - 1`, which is
strictly above `n - 1`, and 32 zero bytes yield the scalar 0. -/
theorem c5_keygen_no_range_check :
    generate_trading_key 0 (List.replicate 32 255) = 2 ^ 256 - 1 ∧
    secp256k1Order - 1 < 2 ^ 256 - 1 ∧
    ¬ (1 ≤ generate_trading_key 0 (List.replicate 32 255) ∧
       generate_trading_key 0 (List.replicate 32 255) ≤ secp256k1Order - 1) ∧
    generate_trading_key 0 (List.replicate 32 0) = 0 := by
  decide

/-- Claim C6: for every fixed clock reading `now`, the `expiryTime` placed
in the prepared message equals `now + 86400` exactly. -/
theorem c6_expiry_window (now agentAddress : Nat) (platform envTag : String) :
    (prepare_eip712_data now agentAddress platform envTag).message.expiryTime =
      now + 86400 := rfl

/-- Claim C7: on the same `(walletAddress, sessionId)` key, save followed by
load returns the record saved, delete followed by load returns absent, and
load on a never-written key returns absent rather than an error. -/
theorem c7_store_roundtrip (α : Type) (store : String → Option α)
    (walletAddress sessionId : String) (keyData : α) :
    load_session_keys walletAddress sessionId
        (save_session_keys walletAddress sessionId keyData store) = some keyData ∧
    load_session_keys walletAddress sessionId
        (delete_session_keys walletAddress sessionId store) = none ∧
    load_session_keys walletAddress sessionId (emptyStore α) = none := by
  refine ⟨?_, ?_, rfl⟩ <;>
    simp [load_session_keys, save_session_keys, delete_session_keys]

/-- Counterexample to claim C8 as stated: the distinct keys `("a_b", "c")`
and `("a", "b_c")` collide on the same storage filename `"a_b_c.key"`, so a
save under the first key changes the result of load under the second. -/
theorem c8_distinct_keys_counterexample :
    (("a_b", "c") : String × String) ≠ ("a", "b_c") ∧
    load_session_keys "a" "b_c"
        (save_session_keys "a_b" "c" (0 : Nat) (emptyStore Nat)) ≠
      load_session_keys "a" "b_c" (emptyStore Nat) := by
  constructor
  · decide
  · decide

/-- Claim C8 as amended: a save or delete under one key leaves load under
another key unchanged whenever the two keys map to distinct storage
filenames `wallet ++ "_" ++ session ++ ".key"` (which distinct key pairs do
unless an underscore in the components makes the filenames collide). -/
theorem c8_distinct_files_independent (α : Type) (w1 s1 w2 s2 : String)
    (r : α) (store : String → Option α)
    (h : session_file_key w1 s1 ≠ session_file_key w2 s2) :
    load_session_keys w2 s2 (save_session_keys w1 s1 r store) =
      load_session_keys w2 s2 store ∧
    load_session_keys w2 s2 (delete_session_keys w1 s1 store) =
      load_session_keys w2 s2 store := by
  constructor <;>
    simp [load_session_keys, save_session_keys, delete_session_keys, Ne.symm h]

/-- Witness for the amended C8 at two concrete underscore-free keys. -/
theorem c8_distinct_files_independent_witness :
    session_file_key "0xA" "1" ≠ session_file_key "0xB" "2" ∧
    (load_session_keys "0xB" "2"
        (save_session_keys "0xA" "1" (5 : Nat) (emptyStore Nat)) =
      load_session_keys "0xB" "2" (emptyStore Nat) ∧
    load_session_keys "0xB" "2"
        (delete_session_keys "0xA" "1" (emptyStore Nat)) =
      load_session_keys "0xB" "2" (emptyStore Nat)) :=
  ⟨by decide,
   c8_distinct_files_independent Nat "0xA" "1" "0xB" "2" 5 (emptyStore Nat) (by decide)⟩

/-- Claim C9: the digest is a deterministic function of `(domain, message)`
with no dependence on the ambient process state: running
`encode_typed_data` from any two process states (clock and RNG stream)
yields the same digest, the state passes through unchanged, and a repeated
invocation from the resulting state yields the same digest again. -/
theorem c9_digest_deterministic (keccak : List Nat → List Nat)
    (d : Eip712Domain) (m : AgentMessage) (st1 st2 : ProcessState) :
    (encode_typed_data_run keccak st1 d m).1 = (encode_typed_data_run keccak st2 d m).1 ∧
    (encode_typed_data_run keccak st1 d m).2 = st1 ∧
    (encode_typed_data_run keccak ((encode_typed_data_run keccak st1 d m).2) d m).1 =
      (encode_typed_data_run keccak st1 d m).1 :=
  ⟨rfl, rfl, rfl⟩

/-- Claim C10 (implicit): the private key returned by
`generate_trading_key` does not depend on the `agent_address` argument —
for the same 32 RNG bytes, any two agent addresses yield the same key, so
the key is not cryptographically bound to the agent it was requested
for. -/
theorem c10_key_ignores_agent (a1 a2 : Nat) (rngDraw : List Nat) :
    generate_trading_key a1 rngDraw = generate_trading_key a2 rngDraw := rfl
